import Mathlib

/-!
# StepSecurityGroup (builder/amazon/common/step_security_group.go)

A shallow embedding of the `StepSecurityGroup` build step: its forward action `Run`
and its teardown action `Cleanup`.

The Go code is stateful.  Here every effect is explicit:

* the receiver `s *StepSecurityGroup` is passed in and returned;
* the `multistep.StateBag` is an association list, passed in and returned;
* calls on the EC2 connection, on the UI, on the logger and `time.Sleep` are recorded,
  in program order, in a trace of `Event`s;
* the answers of the EC2 service and of the UUID generator are read from an `Env`;
* a Go `panic` ends the run with `Completion.panicked`.
-/

namespace StepSecurityGroup

/-! ## Data model -/

/-- Go `ec2.SecurityGroup`: the fields the step reads or writes. -/
structure SecurityGroup where
  Id : String := ""
  Name : String := ""
  Description : String := ""
  VpcId : String := ""
deriving DecidableEq, Repr

/-- Go `ec2.IPPerm`: the fields the step sets in its literal. -/
structure IPPerm where
  Protocol : String
  FromPort : Int
  ToPort : Int
  SourceIPs : List String
deriving DecidableEq, Repr

/-- Go `ec2.CreateSecurityGroupResp`: it embeds a `SecurityGroup`, so `groupResp.Id`
is `groupResp.SecurityGroup.Id`. -/
structure CreateSecurityGroupResp where
  SecurityGroup : SecurityGroup
  RequestId : String := ""
deriving DecidableEq, Repr

/-- The answer of the creation call: `(resp, err)` with `err != nil` or `err == nil`.
An error is represented by its message, `err.Error()`. -/
inductive CreateResult where
  | failed (err : String)
  | created (resp : CreateSecurityGroupResp)
deriving DecidableEq, Repr

/-- Go `multistep.StepAction`. -/
inductive StepAction where
  | ActionContinue
  | ActionHalt
deriving DecidableEq, Repr

/-- Values stored in the state bag (`interface{}` in Go): the EC2 connection handle,
the UI handle, strings and error values. -/
inductive Value where
  | ec2
  | ui
  | str (s : String)
  | error (msg : String)
deriving DecidableEq, Repr

/-- Go `multistep.StateBag`, as an association list; the first binding of a key wins. -/
abbrev StateBag := List (String × Value)

/-- Lookup of `state.Get(key)`; `none` is Go's `nil`. -/
def StateBag.Get (state : StateBag) (key : String) : Option Value :=
  state.lookup key

/-- Update of `state.Put(key, value)`. -/
def StateBag.Put (state : StateBag) (key : String) (value : Value) : StateBag :=
  (key, value) :: state

/-- The step: three configuration fields and the private runtime field. -/
structure Step where
  SecurityGroupId : String
  SSHPort : Int
  VpcId : String
  createdGroupId : String := ""
deriving DecidableEq, Repr

/-- The EC2 service as seen through the connection.  `CreateSecurityGroup` and
`AuthorizeSecurityGroup` are called at most once by the step, so their answer is a
function of the request.  `DeleteSecurityGroup` is called repeatedly with the same
request; its first argument is the number of deletion calls already made, so that any
sequence of outcomes can be described.  `none` is a nil error. -/
structure EC2 where
  CreateSecurityGroup : SecurityGroup → CreateResult
  AuthorizeSecurityGroup : SecurityGroup → List IPPerm → Option String
  DeleteSecurityGroup : Nat → SecurityGroup → Option String

/-- What surrounds the step: the EC2 service and the value that
`uuid.TimeOrderedUUID()` returns. -/
structure Env where
  ec2conn : EC2
  TimeOrderedUUID : String

/-- Observable effects, in program order.  A remote call is recorded with its answer. -/
inductive Event where
  | logPrintf (msg : String)
  | uiSay (msg : String)
  | uiError (msg : String)
  | createSecurityGroup (group : SecurityGroup) (result : CreateResult)
  | authorizeSecurityGroup (group : SecurityGroup) (perms : List IPPerm) (err : Option String)
  | deleteSecurityGroup (group : SecurityGroup) (err : Option String)
  | sleepSeconds (n : Nat)
deriving DecidableEq, Repr

/-- Why a run panicked: a failed type assertion on `state.Get(key)`, or a call of
`panic(msg)`. -/
inductive Panic where
  | typeAssertion (key : String)
  | explicit (msg : String)
deriving DecidableEq, Repr

/-- How a call ended. -/
inductive Completion (α : Type) where
  | returned (a : α)
  | panicked (p : Panic)
deriving DecidableEq, Repr

/-- Everything a call leaves behind. -/
structure Outcome (α : Type) where
  completion : Completion α
  step : Step
  state : StateBag
  trace : List Event

/-! ## The forward action -/

/-- The request of the creation call (lines 37-43). -/
def newGroup (env : Env) (s : Step) : SecurityGroup :=
  { Name := "packer " ++ env.TimeOrderedUUID
    Description := "Temporary group for Packer"
    VpcId := s.VpcId }

/-- The ingress rules of the authorization call (lines 54-61). -/
def sshPerms (SSHPort : Int) : List IPPerm :=
  [{ Protocol := "tcp", FromPort := SSHPort, ToPort := SSHPort,
     SourceIPs := ["0.0.0.0/0"] }]

/-- Embedding of `func (s *StepSecurityGroup) Run(state multistep.StateBag) multistep.StepAction`. -/
def Run (env : Env) (s : Step) (state : StateBag) : Outcome StepAction :=
  match state.Get "ec2" with
  | some Value.ec2 =>
    match state.Get "ui" with
    | some Value.ui =>
      if s.SecurityGroupId ≠ "" then
        { completion := .returned .ActionContinue
          step := s
          state := state.Put "securityGroupId" (.str s.SecurityGroupId)
          trace := [.logPrintf ("Using specified security group: " ++ s.SecurityGroupId)] }
      else if s.SSHPort = 0 then
        { completion := .panicked (.explicit "SSHPort must be set to a non-zero value.")
          step := s
          state := state
          trace := [] }
      else
        let group := newGroup env s
        let t1 : List Event :=
          [.uiSay "Creating temporary security group for this instance...",
           .logPrintf ("Temporary group name: " ++ group.Name),
           .createSecurityGroup group (env.ec2conn.CreateSecurityGroup group)]
        match env.ec2conn.CreateSecurityGroup group with
        | .failed err =>
          { completion := .returned .ActionHalt
            step := s
            state := state
            trace := t1 ++ [.uiError err] }
        | .created groupResp =>
          let s1 : Step := { s with createdGroupId := groupResp.SecurityGroup.Id }
          let perms := sshPerms s1.SSHPort
          let authErr := env.ec2conn.AuthorizeSecurityGroup groupResp.SecurityGroup perms
          let t2 : List Event := t1 ++
            [.uiSay "Authorizing SSH access on the temporary security group...",
             .authorizeSecurityGroup groupResp.SecurityGroup perms authErr]
          match authErr with
          | some err =>
            let err2 := "Error creating temporary security group: " ++ err
            { completion := .returned .ActionHalt
              step := s1
              state := state.Put "error" (.error err2)
              trace := t2 ++ [.uiError err2] }
          | none =>
            { completion := .returned .ActionContinue
              step := s1
              state := state.Put "securityGroupId" (.str s1.createdGroupId)
              trace := t2 }
    | _ =>
      { completion := .panicked (.typeAssertion "ui"), step := s, state := state, trace := [] }
  | _ =>
    { completion := .panicked (.typeAssertion "ec2"), step := s, state := state, trace := [] }

/-! ## The teardown action -/

/-- The loop `for i := 0; i < 5; i++` of `Cleanup` (lines 88-96), entered at index `i`
with `remaining = 5 - i` iterations left and the current value of `err`.  It returns
the events of the remaining iterations and the final value of `err`. -/
def deleteLoop (conn : EC2) (createdGroupId : String) :
    (remaining : Nat) → (i : Nat) → (err : Option String) → List Event × Option String
  | 0, _, err => ([], err)
  | remaining + 1, i, _ =>
    let group : SecurityGroup := { Id := createdGroupId }
    match conn.DeleteSecurityGroup i group with
    | none => ([.deleteSecurityGroup group none], none)
    | some e =>
      let rest := deleteLoop conn createdGroupId remaining (i + 1) (some e)
      ([.deleteSecurityGroup group (some e),
        .logPrintf ("Error deleting security group: " ++ e),
        .sleepSeconds 5] ++ rest.1, rest.2)

/-- Embedding of `func (s *StepSecurityGroup) Cleanup(state multistep.StateBag)`. -/
def Cleanup (env : Env) (s : Step) (state : StateBag) : Outcome Unit :=
  if s.createdGroupId = "" then
    { completion := .returned (), step := s, state := state, trace := [] }
  else
    match state.Get "ec2" with
    | some Value.ec2 =>
      match state.Get "ui" with
      | some Value.ui =>
        let loop := deleteLoop env.ec2conn s.createdGroupId 5 0 none
        let t1 : List Event := [.uiSay "Deleting temporary security group..."] ++ loop.1
        match loop.2 with
        | some _ =>
          { completion := .returned ()
            step := s
            state := state
            trace := t1 ++ [.uiError
              ("Error cleaning up security group. Please delete the group manually: "
                ++ s.createdGroupId)] }
        | none =>
          { completion := .returned (), step := s, state := state, trace := t1 }
      | _ =>
        { completion := .panicked (.typeAssertion "ui"), step := s, state := state, trace := [] }
    | _ =>
      { completion := .panicked (.typeAssertion "ec2"), step := s, state := state, trace := [] }

/-! ## Observations on traces -/

/-- Whether an event is a call on the EC2 connection. -/
def Event.isRemote : Event → Bool
  | .createSecurityGroup _ _ => true
  | .authorizeSecurityGroup _ _ _ => true
  | .deleteSecurityGroup _ _ => true
  | _ => false

/-- The remote calls of a trace, in order. -/
def remoteCalls (trace : List Event) : List Event :=
  trace.filter Event.isRemote

/-- The requests of the creation calls of a trace. -/
def createCalls (trace : List Event) : List SecurityGroup :=
  trace.filterMap fun
    | .createSecurityGroup g _ => some g
    | _ => none

/-- The requests of the authorization calls of a trace. -/
def authorizeCalls (trace : List Event) : List (SecurityGroup × List IPPerm) :=
  trace.filterMap fun
    | .authorizeSecurityGroup g p _ => some (g, p)
    | _ => none

/-- The deletion attempts of a trace: the group targeted and the error returned. -/
def deleteAttempts (trace : List Event) : List (SecurityGroup × Option String) :=
  trace.filterMap fun
    | .deleteSecurityGroup g r => some (g, r)
    | _ => none

/-- The texts passed to `ui.Error`. -/
def uiErrors (trace : List Event) : List String :=
  trace.filterMap fun
    | .uiError m => some m
    | _ => none

/-- The texts passed to `ui.Say` or `ui.Error`. -/
def uiOutput (trace : List Event) : List String :=
  trace.filterMap fun
    | .uiSay m => some m
    | .uiError m => some m
    | _ => none

/-- The state bag holds the EC2 connection under `ec2` and the UI under `ui`. -/
def HasHandles (state : StateBag) : Prop :=
  state.Get "ec2" = some Value.ec2 ∧ state.Get "ui" = some Value.ui

instance (state : StateBag) : Decidable (HasHandles state) := by
  unfold HasHandles; infer_instance

/-! ## Sample inputs -/

/-- A state bag holding exactly the two handles. -/
def baseState : StateBag := [("ec2", Value.ec2), ("ui", Value.ui)]

/-- A service where creation answers with identifier `id`, and authorization and
deletion answer as given. -/
def service (id : String) (auth : Option String) (del : Nat → Option String) : EC2 :=
  { CreateSecurityGroup := fun g => .created { SecurityGroup := { g with Id := id } }
    AuthorizeSecurityGroup := fun _ _ => auth
    DeleteSecurityGroup := fun i _ => del i }

/-- A service whose creation call fails. -/
def brokenService : EC2 :=
  { CreateSecurityGroup := fun _ => .failed "RequestLimitExceeded"
    AuthorizeSecurityGroup := fun _ _ => none
    DeleteSecurityGroup := fun _ _ => none }

/-- A service whose creation and authorization succeed and whose deletion fails on the
first `k` attempts and succeeds afterwards. -/
def flakyService (id : String) (k : Nat) : EC2 :=
  service id none (fun i => if i < k then some "DependencyViolation" else none)

/-- A service whose creation call succeeds with identifier `id` and whose authorization
call is refused. -/
def refusingService (id : String) : EC2 :=
  service id (some "denied") (fun _ => none)

/-- The group that `service id` answers to the creation request of the scenarios below
(token `u1`, network `vpc-1`). -/
def answeredGroup (id : String) : SecurityGroup :=
  { Id := id, Name := "packer u1", Description := "Temporary group for Packer",
    VpcId := "vpc-1" }

/-- The configuration of the reuse scenario. -/
def reuseStep : Step :=
  { SecurityGroupId := "sg-existing", SSHPort := 0, VpcId := "" }

/-- The configuration of the creation scenario: port 22 in network `vpc-1`. -/
def sshStep : Step :=
  { SecurityGroupId := "", SSHPort := 22, VpcId := "vpc-1" }

/-- A step that has recorded the group `sg-abc` as created. -/
def ownerStep : Step :=
  { SecurityGroupId := "", SSHPort := 22, VpcId := "vpc-1", createdGroupId := "sg-abc" }

/-- A configuration with no group to reuse and port zero. -/
def zeroPortStep : Step :=
  { SecurityGroupId := "", SSHPort := 0, VpcId := "vpc-1" }

/-! ## Basic facts -/

theorem StateBag.Get_Put_same (state : StateBag) (key : String) (value : Value) :
    (state.Put key value).Get key = some value := by
  simp [StateBag.Get, StateBag.Put, List.lookup]

theorem StateBag.Get_Put_other (state : StateBag) (key other : String) (value : Value)
    (h : other ≠ key) : (state.Put key value).Get other = state.Get other := by
  have hb : (other == key) = false := by simpa using h
  simp [StateBag.Get, StateBag.Put, List.lookup, hb]

theorem HasHandles_Put (state : StateBag) (key : String) (value : Value)
    (hh : HasHandles state) (h1 : key ≠ "ec2") (h2 : key ≠ "ui") :
    HasHandles (state.Put key value) := by
  refine ⟨?_, ?_⟩
  · rw [StateBag.Get_Put_other _ _ _ _ (Ne.symm h1)]; exact hh.1
  · rw [StateBag.Get_Put_other _ _ _ _ (Ne.symm h2)]; exact hh.2

/-- The reuse path of `Run` (lines 25-29). -/
theorem Run_eq_reuse (env : Env) (s : Step) (state : StateBag) (hh : HasHandles state)
    (hid : s.SecurityGroupId ≠ "") :
    Run env s state =
      { completion := .returned .ActionContinue
        step := s
        state := state.Put "securityGroupId" (.str s.SecurityGroupId)
        trace := [.logPrintf ("Using specified security group: " ++ s.SecurityGroupId)] } := by
  simp [Run, hh.1, hh.2, hid]

/-- The zero-port path of `Run` (lines 31-33). -/
theorem Run_eq_zeroPort (env : Env) (s : Step) (state : StateBag) (hh : HasHandles state)
    (hid : s.SecurityGroupId = "") (hp : s.SSHPort = 0) :
    Run env s state =
      { completion := .panicked (.explicit "SSHPort must be set to a non-zero value.")
        step := s, state := state, trace := [] } := by
  simp [Run, hh.1, hh.2, hid, hp]

/-- The path of `Run` where the creation call fails (lines 44-48). -/
theorem Run_eq_createFailed (env : Env) (s : Step) (state : StateBag) (hh : HasHandles state)
    (hid : s.SecurityGroupId = "") (hp : s.SSHPort ≠ 0) (err : String)
    (hc : env.ec2conn.CreateSecurityGroup (newGroup env s) = .failed err) :
    Run env s state =
      { completion := .returned .ActionHalt
        step := s
        state := state
        trace :=
          [.uiSay "Creating temporary security group for this instance...",
           .logPrintf ("Temporary group name: " ++ (newGroup env s).Name),
           .createSecurityGroup (newGroup env s) (.failed err),
           .uiError err] } := by
  simp [Run, hh.1, hh.2, hid, hp, hc]

/-- The path of `Run` where creation succeeds and authorization fails (lines 64-69). -/
theorem Run_eq_authFailed (env : Env) (s : Step) (state : StateBag) (hh : HasHandles state)
    (hid : s.SecurityGroupId = "") (hp : s.SSHPort ≠ 0) (resp : CreateSecurityGroupResp)
    (hc : env.ec2conn.CreateSecurityGroup (newGroup env s) = .created resp) (err : String)
    (ha : env.ec2conn.AuthorizeSecurityGroup resp.SecurityGroup (sshPerms s.SSHPort) = some err) :
    Run env s state =
      { completion := .returned .ActionHalt
        step := { s with createdGroupId := resp.SecurityGroup.Id }
        state := state.Put "error" (.error ("Error creating temporary security group: " ++ err))
        trace :=
          [.uiSay "Creating temporary security group for this instance...",
           .logPrintf ("Temporary group name: " ++ (newGroup env s).Name),
           .createSecurityGroup (newGroup env s) (.created resp),
           .uiSay "Authorizing SSH access on the temporary security group...",
           .authorizeSecurityGroup resp.SecurityGroup (sshPerms s.SSHPort) (some err),
           .uiError ("Error creating temporary security group: " ++ err)] } := by
  simp [Run, hh.1, hh.2, hid, hp, hc, ha]

/-- The path of `Run` where creation and authorization succeed (lines 71-74). -/
theorem Run_eq_ok (env : Env) (s : Step) (state : StateBag) (hh : HasHandles state)
    (hid : s.SecurityGroupId = "") (hp : s.SSHPort ≠ 0) (resp : CreateSecurityGroupResp)
    (hc : env.ec2conn.CreateSecurityGroup (newGroup env s) = .created resp)
    (ha : env.ec2conn.AuthorizeSecurityGroup resp.SecurityGroup (sshPerms s.SSHPort) = none) :
    Run env s state =
      { completion := .returned .ActionContinue
        step := { s with createdGroupId := resp.SecurityGroup.Id }
        state := state.Put "securityGroupId" (.str resp.SecurityGroup.Id)
        trace :=
          [.uiSay "Creating temporary security group for this instance...",
           .logPrintf ("Temporary group name: " ++ (newGroup env s).Name),
           .createSecurityGroup (newGroup env s) (.created resp),
           .uiSay "Authorizing SSH access on the temporary security group...",
           .authorizeSecurityGroup resp.SecurityGroup (sshPerms s.SSHPort) none] } := by
  simp [Run, hh.1, hh.2, hid, hp, hc, ha]

/-- With nothing recorded in `createdGroupId`, `Cleanup` returns at once (lines 78-80). -/
theorem Cleanup_eq_noop (env : Env) (s : Step) (state : StateBag)
    (h : s.createdGroupId = "") :
    Cleanup env s state =
      { completion := .returned (), step := s, state := state, trace := [] } := by
  simp [Cleanup, h]

/-- No branch of `Cleanup` changes the state bag or the step. -/
theorem Cleanup_state_step (env : Env) (s : Step) (state : StateBag) :
    (Cleanup env s state).state = state ∧ (Cleanup env s state).step = s := by
  unfold Cleanup
  split
  · exact ⟨rfl, rfl⟩
  · split
    · split
      · dsimp only
        split <;> exact ⟨rfl, rfl⟩
      · exact ⟨rfl, rfl⟩
    · exact ⟨rfl, rfl⟩

/-! ## The deletion loop -/

/-- Every attempt of the loop targets the group identified by `createdGroupId`. -/
theorem deleteLoop_targets (conn : EC2) (id : String) (remaining i : Nat)
    (err : Option String) :
    ∀ p ∈ deleteAttempts (deleteLoop conn id remaining i err).1, p.1 = { Id := id } := by
  induction remaining generalizing i err with
  | zero => simp [deleteLoop, deleteAttempts]
  | succ n ih =>
    intro p hp
    unfold deleteLoop at hp
    dsimp only at hp
    split at hp
    · simp [deleteAttempts] at hp
      rw [hp]
    · rename_i e he
      simp only [deleteAttempts, List.cons_append, List.nil_append, List.filterMap_cons,
        List.mem_cons] at hp
      rcases hp with hp | hp
      · rw [hp]
      · exact ih (i + 1) (some e) p hp

/-- The loop itself writes nothing to the UI and makes no creation or authorization call. -/
theorem deleteLoop_quiet (conn : EC2) (id : String) (remaining i : Nat)
    (err : Option String) :
    uiOutput (deleteLoop conn id remaining i err).1 = [] ∧
    uiErrors (deleteLoop conn id remaining i err).1 = [] ∧
    createCalls (deleteLoop conn id remaining i err).1 = [] ∧
    authorizeCalls (deleteLoop conn id remaining i err).1 = [] := by
  induction remaining generalizing i err with
  | zero => simp [deleteLoop, uiOutput, uiErrors, createCalls, authorizeCalls]
  | succ n ih =>
    unfold deleteLoop
    dsimp only
    split
    · simp [uiOutput, uiErrors, createCalls, authorizeCalls]
    · rename_i e he
      have h := ih (i + 1) (some e)
      simp only [uiOutput, uiErrors, createCalls, authorizeCalls] at h ⊢
      simp [h.1, h.2.1, h.2.2.1, h.2.2.2]

/-- If the attempts numbered `i, …, i + k - 1` fail and attempt `i + k` succeeds, with
`k` below the number of iterations left, the loop makes `k + 1` attempts and leaves
`err` nil. -/
theorem deleteLoop_succeeds (conn : EC2) (id : String) (remaining : Nat) :
    ∀ (i : Nat) (err : Option String) (k : Nat), k < remaining →
      (∀ j, j < k → conn.DeleteSecurityGroup (i + j) { Id := id } ≠ none) →
      conn.DeleteSecurityGroup (i + k) { Id := id } = none →
      (deleteAttempts (deleteLoop conn id remaining i err).1).length = k + 1 ∧
      (deleteLoop conn id remaining i err).2 = none := by
  induction remaining with
  | zero => intro i err k hk; omega
  | succ n ih =>
    intro i err k hk hfail hok
    unfold deleteLoop
    dsimp only
    cases k with
    | zero =>
      have h0 : conn.DeleteSecurityGroup i { Id := id } = none := by simpa using hok
      simp [h0, deleteAttempts]
    | succ k =>
      have h0 : conn.DeleteSecurityGroup i { Id := id } ≠ none := by
        simpa using hfail 0 (Nat.succ_pos k)
      obtain ⟨e, he⟩ := Option.ne_none_iff_exists'.mp h0
      have hrec := ih (i + 1) (some e) k (by omega)
        (fun j hj => by
          have := hfail (j + 1) (by omega)
          rwa [show i + 1 + j = i + (j + 1) by omega])
        (by rwa [show i + 1 + k = i + (k + 1) by omega])
      simp only [he]
      simp only [deleteAttempts] at hrec ⊢
      simp [hrec.1, hrec.2]

/-- If every attempt left fails, the loop makes all of them and leaves `err` non-nil. -/
theorem deleteLoop_exhausted (conn : EC2) (id : String) (remaining : Nat) :
    ∀ (i : Nat) (err : Option String),
      (∀ j, j < remaining → conn.DeleteSecurityGroup (i + j) { Id := id } ≠ none) →
      (deleteAttempts (deleteLoop conn id remaining i err).1).length = remaining ∧
      (0 < remaining → (deleteLoop conn id remaining i err).2 ≠ none) ∧
      (remaining = 0 → (deleteLoop conn id remaining i err).2 = err) := by
  induction remaining with
  | zero => intro i err _; simp [deleteLoop, deleteAttempts]
  | succ n ih =>
    intro i err hfail
    unfold deleteLoop
    dsimp only
    have h0 : conn.DeleteSecurityGroup i { Id := id } ≠ none := by
      simpa using hfail 0 (Nat.succ_pos n)
    obtain ⟨e, he⟩ := Option.ne_none_iff_exists'.mp h0
    have hrec := ih (i + 1) (some e)
      (fun j hj => by
        have := hfail (j + 1) (by omega)
        rwa [show i + 1 + j = i + (j + 1) by omega])
    simp only [he]
    simp only [deleteAttempts] at hrec ⊢
    refine ⟨by simp [hrec.1], fun _ => ?_, fun h => by omega⟩
    rcases Nat.eq_zero_or_pos n with hn | hn
    · rw [hrec.2.2 hn]; simp
    · exact hrec.2.1 hn

/-- The active branch of `Cleanup` (lines 82-101): it returns, and its trace is the
announcement, the events of the loop and, if `err` is non-nil after the loop, the
warning. -/
theorem Cleanup_active (env : Env) (s : Step) (state : StateBag) (hh : HasHandles state)
    (hc : s.createdGroupId ≠ "") :
    (Cleanup env s state).completion = .returned () ∧
    (Cleanup env s state).trace =
      [.uiSay "Deleting temporary security group..."]
        ++ (deleteLoop env.ec2conn s.createdGroupId 5 0 none).1
        ++ (match (deleteLoop env.ec2conn s.createdGroupId 5 0 none).2 with
            | some _ =>
              [.uiError ("Error cleaning up security group. Please delete the group manually: "
                ++ s.createdGroupId)]
            | none => []) := by
  simp only [Cleanup, hc, if_false, hh.1, hh.2]
  split <;> simp

/-- Every deletion attempt of the active branch of `Cleanup` targets the group
identified by `createdGroupId`. -/
theorem Cleanup_targets (env : Env) (s : Step) (state : StateBag) (hh : HasHandles state)
    (hc : s.createdGroupId ≠ "") :
    ∀ p ∈ deleteAttempts (Cleanup env s state).trace, p.1 = { Id := s.createdGroupId } := by
  intro p hp
  rw [(Cleanup_active env s state hh hc).2] at hp
  have ht := deleteLoop_targets env.ec2conn s.createdGroupId 5 0 none p
  simp only [deleteAttempts, List.filterMap_append, List.mem_append] at hp ht
  rcases hp with (hp | hp) | hp
  · simp at hp
  · exact ht hp
  · split at hp <;> simp at hp

/-- With an iteration left, the first attempt of the loop is the call numbered `i` on the
group identified by `createdGroupId`. -/
theorem deleteLoop_first (conn : EC2) (id : String) (n i : Nat) (err : Option String) :
    (deleteAttempts (deleteLoop conn id (n + 1) i err).1).head?
      = some ({ Id := id }, conn.DeleteSecurityGroup i { Id := id }) := by
  unfold deleteLoop
  dsimp only
  split
  · rename_i h; simp [deleteAttempts, h]
  · rename_i e h; simp [deleteAttempts, h]

/-- When the call numbered `i` succeeds, the loop stops after it. -/
theorem deleteLoop_first_ok (conn : EC2) (id : String) (n i : Nat) (err : Option String)
    (h : conn.DeleteSecurityGroup i { Id := id } = none) :
    deleteLoop conn id (n + 1) i err = ([.deleteSecurityGroup { Id := id } none], none) := by
  unfold deleteLoop
  simp [h]

/-- In its active branch `Cleanup` makes a first deletion attempt, on the group
identified by `createdGroupId`. -/
theorem Cleanup_first_attempt (env : Env) (s : Step) (state : StateBag)
    (hh : HasHandles state) (hc : s.createdGroupId ≠ "") :
    (deleteAttempts (Cleanup env s state).trace).head?
      = some ({ Id := s.createdGroupId },
          env.ec2conn.DeleteSecurityGroup 0 { Id := s.createdGroupId }) := by
  have h1 := deleteLoop_first env.ec2conn s.createdGroupId 4 0 none
  rw [(Cleanup_active env s state hh hc).2]
  simp only [deleteAttempts, List.filterMap_append] at h1 ⊢
  cases hl : List.filterMap (fun x => match x with
      | Event.deleteSecurityGroup g r => some (g, r)
      | _ => none) (deleteLoop env.ec2conn s.createdGroupId 5 0 none).1 with
  | nil => rw [hl] at h1; simp at h1
  | cons a t => rw [hl] at h1; simpa using h1

/-! ## The reuse path -/

/-- C1.  Reuse path: when `SecurityGroupId` is non-empty (whatever `SSHPort` and `VpcId`
are) and the state bag holds the client and UI handles, `Run` returns `ActionContinue`,
makes no remote call, leaves the step (so `createdGroupId`) as it was, and the state bag
afterwards maps `securityGroupId` to `SecurityGroupId`.  If `createdGroupId` was empty
at the start, the `Cleanup` that follows returns with an empty trace: no remote call,
no output. -/
theorem Run_reuse_path (env : Env) (s : Step) (state : StateBag) (hh : HasHandles state)
    (hid : s.SecurityGroupId ≠ "") :
    (Run env s state).completion = .returned .ActionContinue ∧
    remoteCalls (Run env s state).trace = [] ∧
    (Run env s state).step.createdGroupId = s.createdGroupId ∧
    (Run env s state).step = s ∧
    (Run env s state).state.Get "securityGroupId" = some (.str s.SecurityGroupId) ∧
    (s.createdGroupId = "" →
      (Cleanup env (Run env s state).step (Run env s state).state).completion = .returned () ∧
      (Cleanup env (Run env s state).step (Run env s state).state).trace = []) := by
  rw [Run_eq_reuse env s state hh hid]
  refine ⟨rfl, by simp [remoteCalls, Event.isRemote], rfl, rfl,
    StateBag.Get_Put_same _ _ _, fun h => ?_⟩
  rw [Cleanup_eq_noop _ _ _ h]
  exact ⟨rfl, rfl⟩

/-- The reuse scenario of the specification: group `sg-existing`, port left at zero. -/
theorem Run_reuse_path_witness :
    HasHandles baseState ∧ reuseStep.SecurityGroupId ≠ "" ∧
    (Run ⟨brokenService, "u1"⟩ reuseStep baseState).completion = .returned .ActionContinue ∧
    remoteCalls (Run ⟨brokenService, "u1"⟩ reuseStep baseState).trace = [] ∧
    (Run ⟨brokenService, "u1"⟩ reuseStep baseState).state.Get "securityGroupId"
      = some (.str "sg-existing") ∧
    (Cleanup ⟨brokenService, "u1"⟩ (Run ⟨brokenService, "u1"⟩ reuseStep baseState).step
      (Run ⟨brokenService, "u1"⟩ reuseStep baseState).state).trace = [] :=
  have h := Run_reuse_path ⟨brokenService, "u1"⟩ reuseStep baseState (by decide) (by decide)
  ⟨by decide, by decide, h.1, h.2.1, h.2.2.2.2.1, (h.2.2.2.2.2 rfl).2⟩

/-! ## Bounded retry in `Cleanup` -/

/-- C2.  Bounded retry: for a step with non-empty `createdGroupId` (run with the client
and UI handles in the state bag) `Cleanup` returns, and every deletion call targets the
group identified by `createdGroupId`.  If deletion fails on the first `k` attempts and
succeeds on the next one, with `k ≤ 4`, there are exactly `k + 1` deletion calls and no
`ui.Error`.  If deletion fails on each of the first 5 attempts, there are exactly 5
deletion calls and exactly one `ui.Error`, whose text ends with `createdGroupId`. -/
theorem Cleanup_bounded_retry (env : Env) (s : Step) (state : StateBag)
    (hh : HasHandles state) (hc : s.createdGroupId ≠ "") :
    (Cleanup env s state).completion = .returned () ∧
    (∀ p ∈ deleteAttempts (Cleanup env s state).trace, p.1 = { Id := s.createdGroupId }) ∧
    (∀ k, k ≤ 4 →
      (∀ j, j < k → env.ec2conn.DeleteSecurityGroup j { Id := s.createdGroupId } ≠ none) →
      env.ec2conn.DeleteSecurityGroup k { Id := s.createdGroupId } = none →
      (deleteAttempts (Cleanup env s state).trace).length = k + 1 ∧
      uiErrors (Cleanup env s state).trace = []) ∧
    ((∀ j, j < 5 → env.ec2conn.DeleteSecurityGroup j { Id := s.createdGroupId } ≠ none) →
      (deleteAttempts (Cleanup env s state).trace).length = 5 ∧
      uiErrors (Cleanup env s state).trace =
        ["Error cleaning up security group. Please delete the group manually: "
          ++ s.createdGroupId]) := by
  obtain ⟨hcomp, htrace⟩ := Cleanup_active env s state hh hc
  have hq := deleteLoop_quiet env.ec2conn s.createdGroupId 5 0 none
  refine ⟨hcomp, Cleanup_targets env s state hh hc, ?_, ?_⟩
  · intro k hk hfail hok
    have hs := deleteLoop_succeeds env.ec2conn s.createdGroupId 5 0 none k (by omega)
      (fun j hj => by simpa using hfail j hj) (by simpa using hok)
    rw [htrace, hs.2]
    simp only [deleteAttempts, uiErrors, List.filterMap_append] at hs hq ⊢
    simp [hs.1, hq.2.1]
  · intro hfail
    have hx := deleteLoop_exhausted env.ec2conn s.createdGroupId 5 0 none
      (fun j hj => by simpa using hfail j hj)
    obtain ⟨e, he⟩ := Option.ne_none_iff_exists'.mp (hx.2.1 (by decide))
    rw [htrace, he]
    simp only [deleteAttempts, uiErrors, List.filterMap_append] at hx hq ⊢
    simp [hx.1, hq.2.1]

/-- Two failed deletions followed by a success: three calls and no warning.  Seven
failed deletions: five calls and the warning naming `sg-abc`. -/
theorem Cleanup_bounded_retry_witness :
    HasHandles baseState ∧ ownerStep.createdGroupId ≠ "" ∧
    ((deleteAttempts (Cleanup ⟨flakyService "sg-abc" 2, "u1"⟩ ownerStep baseState).trace).length
        = 2 + 1 ∧
      uiErrors (Cleanup ⟨flakyService "sg-abc" 2, "u1"⟩ ownerStep baseState).trace = []) ∧
    ((deleteAttempts (Cleanup ⟨flakyService "sg-abc" 7, "u1"⟩ ownerStep baseState).trace).length
        = 5 ∧
      uiErrors (Cleanup ⟨flakyService "sg-abc" 7, "u1"⟩ ownerStep baseState).trace =
        ["Error cleaning up security group. Please delete the group manually: "
          ++ ownerStep.createdGroupId]) :=
  ⟨by decide, by decide,
    (Cleanup_bounded_retry ⟨flakyService "sg-abc" 2, "u1"⟩ ownerStep baseState
      (by decide) (by decide)).2.2.1 2 (by decide) (by decide) (by decide),
    (Cleanup_bounded_retry ⟨flakyService "sg-abc" 7, "u1"⟩ ownerStep baseState
      (by decide) (by decide)).2.2.2 (by decide)⟩

/-! ## Failure of the authorization call -/

/-- C3, as stated, fails when the creation call answers with the empty identifier:
`Run` halts with `createdGroupId` equal to that identifier, and the `Cleanup` that
follows takes it for unset and attempts no deletion. -/
theorem Run_authorization_failure_emptyId :
    HasHandles baseState ∧ sshStep.SecurityGroupId = "" ∧ sshStep.SSHPort ≠ 0 ∧
    (refusingService "").CreateSecurityGroup (newGroup ⟨refusingService "", "u1"⟩ sshStep)
      = .created { SecurityGroup := answeredGroup "" } ∧
    (answeredGroup "").Id = "" ∧
    (refusingService "").AuthorizeSecurityGroup (answeredGroup "") (sshPerms 22)
      = some "denied" ∧
    (Run ⟨refusingService "", "u1"⟩ sshStep baseState).completion
      = .returned .ActionHalt ∧
    (Run ⟨refusingService "", "u1"⟩ sshStep baseState).step.createdGroupId = "" ∧
    deleteAttempts (Cleanup ⟨refusingService "", "u1"⟩
      (Run ⟨refusingService "", "u1"⟩ sshStep baseState).step
      (Run ⟨refusingService "", "u1"⟩ sshStep baseState).state).trace = [] := by
  decide

/-- C3, amended.  Authorization failure keeps the cleanup obligation: with empty
`SecurityGroupId` and non-zero `SSHPort`, if the creation call succeeds with a non-empty
identifier and the authorization call then fails, `Run` returns `ActionHalt`,
`createdGroupId` equals the returned identifier, and the `Cleanup` that follows returns
after at least one deletion attempt on that identifier (all its attempts target it). -/
theorem Run_authorization_failure (env : Env) (s : Step) (state : StateBag)
    (hh : HasHandles state) (hid : s.SecurityGroupId = "") (hp : s.SSHPort ≠ 0)
    (resp : CreateSecurityGroupResp)
    (hc : env.ec2conn.CreateSecurityGroup (newGroup env s) = .created resp)
    (hne : resp.SecurityGroup.Id ≠ "") (err : String)
    (ha : env.ec2conn.AuthorizeSecurityGroup resp.SecurityGroup (sshPerms s.SSHPort)
      = some err) :
    (Run env s state).completion = .returned .ActionHalt ∧
    (Run env s state).step.createdGroupId = resp.SecurityGroup.Id ∧
    (Cleanup env (Run env s state).step (Run env s state).state).completion
      = .returned () ∧
    (∃ r, ({ Id := resp.SecurityGroup.Id }, r)
      ∈ deleteAttempts (Cleanup env (Run env s state).step (Run env s state).state).trace) ∧
    (∀ p ∈ deleteAttempts (Cleanup env (Run env s state).step (Run env s state).state).trace,
      p.1 = { Id := resp.SecurityGroup.Id }) := by
  rw [Run_eq_authFailed env s state hh hid hp resp hc err ha]
  have hh2 : HasHandles (state.Put "error"
      (.error ("Error creating temporary security group: " ++ err))) :=
    HasHandles_Put _ _ _ hh (by decide) (by decide)
  refine ⟨rfl, rfl, ?_, ?_, ?_⟩
  · exact (Cleanup_active env _ _ hh2 hne).1
  · have hf := Cleanup_first_attempt env { s with createdGroupId := resp.SecurityGroup.Id }
      _ hh2 hne
    exact ⟨_, List.mem_of_mem_head? hf⟩
  · exact Cleanup_targets env { s with createdGroupId := resp.SecurityGroup.Id } _ hh2 hne

/-- Creation answers `sg-abc`, authorization is refused: `Run` halts and `Cleanup`
attempts the deletion of `sg-abc`. -/
theorem Run_authorization_failure_witness :
    HasHandles baseState ∧ sshStep.SecurityGroupId = "" ∧ sshStep.SSHPort ≠ 0 ∧
    (Run ⟨refusingService "sg-abc", "u1"⟩ sshStep baseState).completion
      = .returned .ActionHalt ∧
    (Run ⟨refusingService "sg-abc", "u1"⟩ sshStep baseState).step.createdGroupId
      = "sg-abc" ∧
    (∃ r, ({ Id := "sg-abc" }, r) ∈ deleteAttempts (Cleanup ⟨refusingService "sg-abc", "u1"⟩
      (Run ⟨refusingService "sg-abc", "u1"⟩ sshStep baseState).step
      (Run ⟨refusingService "sg-abc", "u1"⟩ sshStep baseState).state).trace) :=
  have h := Run_authorization_failure ⟨refusingService "sg-abc", "u1"⟩ sshStep baseState
    (by decide) (by decide) (by decide)
    { SecurityGroup := answeredGroup "sg-abc" } (by decide) (by decide) "denied" (by decide)
  ⟨by decide, by decide, by decide, h.1, h.2.1, h.2.2.2.1⟩

/-! ## Failure of the creation call -/

/-- C4.  Creation failure leaves nothing to clean up: with empty `SecurityGroupId`,
non-zero `SSHPort` and `createdGroupId` unset at the start, if the creation call fails
then `Run` returns `ActionHalt`, makes no authorization call, `createdGroupId` is still
empty, and the `Cleanup` that follows returns without any remote call. -/
theorem Run_creation_failure (env : Env) (s : Step) (state : StateBag)
    (hh : HasHandles state) (hid : s.SecurityGroupId = "") (hp : s.SSHPort ≠ 0)
    (h0 : s.createdGroupId = "") (err : String)
    (hc : env.ec2conn.CreateSecurityGroup (newGroup env s) = .failed err) :
    (Run env s state).completion = .returned .ActionHalt ∧
    authorizeCalls (Run env s state).trace = [] ∧
    (Run env s state).step.createdGroupId = "" ∧
    (Cleanup env (Run env s state).step (Run env s state).state).completion
      = .returned () ∧
    remoteCalls (Cleanup env (Run env s state).step (Run env s state).state).trace = [] := by
  rw [Run_eq_createFailed env s state hh hid hp err hc, Cleanup_eq_noop _ _ _ h0]
  exact ⟨rfl, by simp [authorizeCalls], h0, rfl, rfl⟩

/-- The creation call is rejected: `Run` halts and `Cleanup` calls nothing. -/
theorem Run_creation_failure_witness :
    HasHandles baseState ∧ sshStep.SecurityGroupId = "" ∧ sshStep.SSHPort ≠ 0 ∧
    sshStep.createdGroupId = "" ∧
    (Run ⟨brokenService, "u1"⟩ sshStep baseState).completion = .returned .ActionHalt ∧
    authorizeCalls (Run ⟨brokenService, "u1"⟩ sshStep baseState).trace = [] ∧
    remoteCalls (Cleanup ⟨brokenService, "u1"⟩
      (Run ⟨brokenService, "u1"⟩ sshStep baseState).step
      (Run ⟨brokenService, "u1"⟩ sshStep baseState).state).trace = [] :=
  have h := Run_creation_failure ⟨brokenService, "u1"⟩ sshStep baseState
    (by decide) (by decide) (by decide) (by decide) "RequestLimitExceeded" (by decide)
  ⟨by decide, by decide, by decide, by decide, h.1, h.2.1, h.2.2.2.2⟩

/-! ## The success path -/

/-- C5.  Success path: with empty `SecurityGroupId` and non-zero `SSHPort`, if the
creation call succeeds with identifier `g` and the authorization call succeeds, `Run`
returns `ActionContinue`, `createdGroupId` equals `g`, and the state bag afterwards maps
`securityGroupId` to `g`.  If, in the `Cleanup` that follows, the first deletion attempt
succeeds, that attempt is the only deletion call, it targets `g`, and there is no
`ui.Error`. -/
theorem Run_success_path (env : Env) (s : Step) (state : StateBag)
    (hh : HasHandles state) (hid : s.SecurityGroupId = "") (hp : s.SSHPort ≠ 0)
    (resp : CreateSecurityGroupResp)
    (hc : env.ec2conn.CreateSecurityGroup (newGroup env s) = .created resp)
    (ha : env.ec2conn.AuthorizeSecurityGroup resp.SecurityGroup (sshPerms s.SSHPort) = none) :
    (Run env s state).completion = .returned .ActionContinue ∧
    (Run env s state).step.createdGroupId = resp.SecurityGroup.Id ∧
    (Run env s state).state.Get "securityGroupId" = some (.str resp.SecurityGroup.Id) ∧
    (∀ target,
      (deleteAttempts (Cleanup env (Run env s state).step (Run env s state).state).trace).head?
        = some (target, none) →
      (Cleanup env (Run env s state).step (Run env s state).state).completion
        = .returned () ∧
      deleteAttempts (Cleanup env (Run env s state).step (Run env s state).state).trace
        = [({ Id := resp.SecurityGroup.Id }, none)] ∧
      uiErrors (Cleanup env (Run env s state).step (Run env s state).state).trace = []) := by
  rw [Run_eq_ok env s state hh hid hp resp hc ha]
  refine ⟨rfl, rfl, StateBag.Get_Put_same _ _ _, ?_⟩
  intro target hfirst
  have hh2 : HasHandles (state.Put "securityGroupId" (.str resp.SecurityGroup.Id)) :=
    HasHandles_Put _ _ _ hh (by decide) (by decide)
  by_cases hne : resp.SecurityGroup.Id = ""
  · rw [Cleanup_eq_noop _ _ _ hne] at hfirst
    simp [deleteAttempts] at hfirst
  · have hf := Cleanup_first_attempt env { s with createdGroupId := resp.SecurityGroup.Id }
      _ hh2 hne
    rw [hf] at hfirst
    have hok : env.ec2conn.DeleteSecurityGroup 0 { Id := resp.SecurityGroup.Id } = none := by
      simpa using congrArg Prod.snd (Option.some.inj hfirst)
    obtain ⟨hcomp, htrace⟩ :=
      Cleanup_active env { s with createdGroupId := resp.SecurityGroup.Id } _ hh2 hne
    refine ⟨hcomp, ?_, ?_⟩
    · rw [htrace]
      simp [deleteLoop_first_ok env.ec2conn resp.SecurityGroup.Id 4 0 none hok, deleteAttempts]
    · rw [htrace]
      simp [deleteLoop_first_ok env.ec2conn resp.SecurityGroup.Id 4 0 none hok, uiErrors]

/-- The scenario of the specification: port 22, network `vpc-1`, creation answers
`sg-abc`, authorization and the first deletion succeed. -/
theorem Run_success_path_witness :
    HasHandles baseState ∧ sshStep.SecurityGroupId = "" ∧ sshStep.SSHPort ≠ 0 ∧
    (Run ⟨flakyService "sg-abc" 0, "u1"⟩ sshStep baseState).completion
      = .returned .ActionContinue ∧
    (Run ⟨flakyService "sg-abc" 0, "u1"⟩ sshStep baseState).step.createdGroupId = "sg-abc" ∧
    (Run ⟨flakyService "sg-abc" 0, "u1"⟩ sshStep baseState).state.Get "securityGroupId"
      = some (.str "sg-abc") ∧
    deleteAttempts (Cleanup ⟨flakyService "sg-abc" 0, "u1"⟩
      (Run ⟨flakyService "sg-abc" 0, "u1"⟩ sshStep baseState).step
      (Run ⟨flakyService "sg-abc" 0, "u1"⟩ sshStep baseState).state).trace
        = [({ Id := "sg-abc" }, none)] ∧
    uiErrors (Cleanup ⟨flakyService "sg-abc" 0, "u1"⟩
      (Run ⟨flakyService "sg-abc" 0, "u1"⟩ sshStep baseState).step
      (Run ⟨flakyService "sg-abc" 0, "u1"⟩ sshStep baseState).state).trace = [] :=
  have h := Run_success_path ⟨flakyService "sg-abc" 0, "u1"⟩ sshStep baseState
    (by decide) (by decide) (by decide) { SecurityGroup := answeredGroup "sg-abc" }
    (by decide) (by decide)
  have h2 := h.2.2.2 { Id := "sg-abc" } (by decide)
  ⟨by decide, by decide, by decide, h.1, h.2.1, h.2.2.1, h2.2.1, h2.2.2⟩

/-! ## Port zero -/

/-- C6, as stated, fails: with no group to reuse and port zero, `Run` does not return
`ActionHalt` with an error value; it panics, and no error value is in the state bag. -/
theorem Run_zeroPort_not_an_error_result :
    HasHandles baseState ∧ zeroPortStep.SecurityGroupId = "" ∧ zeroPortStep.SSHPort = 0 ∧
    (Run ⟨brokenService, "u1"⟩ zeroPortStep baseState).completion
      = .panicked (.explicit "SSHPort must be set to a non-zero value.") ∧
    (Run ⟨brokenService, "u1"⟩ zeroPortStep baseState).completion
      ≠ .returned .ActionHalt ∧
    (Run ⟨brokenService, "u1"⟩ zeroPortStep baseState).state.Get "error" = none := by
  decide

/-- C6, amended.  With empty `SecurityGroupId` and `SSHPort == 0` (and the handles in
the state bag) `Run` reports the configuration error by `panic`, with the message
`SSHPort must be set to a non-zero value.`: it returns no action, and it leaves the
state bag as it was, so it places no error value there. -/
theorem Run_zeroPort_panics (env : Env) (s : Step) (state : StateBag)
    (hh : HasHandles state) (hid : s.SecurityGroupId = "") (hp : s.SSHPort = 0) :
    (Run env s state).completion
      = .panicked (.explicit "SSHPort must be set to a non-zero value.") ∧
    (∀ a, (Run env s state).completion ≠ .returned a) ∧
    (Run env s state).state = state := by
  rw [Run_eq_zeroPort env s state hh hid hp]
  exact ⟨rfl, fun a h => (by cases h), rfl⟩

/-- Port zero on a state bag with the handles: the panic of line 32. -/
theorem Run_zeroPort_panics_witness :
    HasHandles baseState ∧ zeroPortStep.SecurityGroupId = "" ∧ zeroPortStep.SSHPort = 0 ∧
    (Run ⟨brokenService, "u1"⟩ zeroPortStep baseState).completion
      = .panicked (.explicit "SSHPort must be set to a non-zero value.") ∧
    (Run ⟨brokenService, "u1"⟩ zeroPortStep baseState).state = baseState :=
  have h := Run_zeroPort_panics ⟨brokenService, "u1"⟩ zeroPortStep baseState
    (by decide) (by decide) (by decide)
  ⟨by decide, by decide, by decide, h.1, h.2.2⟩

/-- C7.  Zero port fails before any remote call: with empty `SecurityGroupId` and
`SSHPort == 0`, in every state bag, `Run` does not return (it panics; with the handles
present, by the panic of line 32), and up to that point its trace is empty: no creation
call, no authorization call, no remote call at all; the state bag and the step are as
they were, so no key was written and an unset `createdGroupId` is still unset. -/
theorem Run_zeroPort_no_remote_call (env : Env) (s : Step) (state : StateBag)
    (hid : s.SecurityGroupId = "") (hp : s.SSHPort = 0) :
    (∃ p, (Run env s state).completion = .panicked p) ∧
    (∀ a, (Run env s state).completion ≠ .returned a) ∧
    (HasHandles state → (Run env s state).completion
      = .panicked (.explicit "SSHPort must be set to a non-zero value.")) ∧
    createCalls (Run env s state).trace = [] ∧
    authorizeCalls (Run env s state).trace = [] ∧
    remoteCalls (Run env s state).trace = [] ∧
    (Run env s state).trace = [] ∧
    (Run env s state).state = state ∧
    (Run env s state).step = s ∧
    (s.createdGroupId = "" → (Run env s state).step.createdGroupId = "") := by
  have key : (∃ p, (Run env s state).completion = .panicked p) ∧
      (Run env s state).trace = [] ∧ (Run env s state).state = state ∧
      (Run env s state).step = s := by
    unfold Run
    split
    · split
      · simp [hid, hp]
      · exact ⟨⟨_, rfl⟩, rfl, rfl, rfl⟩
    · exact ⟨⟨_, rfl⟩, rfl, rfl, rfl⟩
  obtain ⟨⟨p, hpanic⟩, htrace, hstate, hstep⟩ := key
  refine ⟨⟨p, hpanic⟩, ?_, ?_, ?_, ?_, ?_, htrace, hstate, hstep, ?_⟩
  · intro a h
    rw [hpanic] at h
    cases h
  · intro hh
    exact (Run_eq_zeroPort env s state hh hid hp) ▸ rfl
  · rw [htrace]; rfl
  · rw [htrace]; rfl
  · rw [htrace]; rfl
  · intro h0
    rw [hstep]; exact h0

/-- Port zero: the run panics with an empty trace, with the handles or without. -/
theorem Run_zeroPort_no_remote_call_witness :
    zeroPortStep.SecurityGroupId = "" ∧ zeroPortStep.SSHPort = 0 ∧
    (∀ a, (Run ⟨brokenService, "u1"⟩ zeroPortStep baseState).completion ≠ .returned a) ∧
    remoteCalls (Run ⟨brokenService, "u1"⟩ zeroPortStep baseState).trace = [] ∧
    (Run ⟨brokenService, "u1"⟩ zeroPortStep baseState).state = baseState ∧
    (Run ⟨brokenService, "u1"⟩ zeroPortStep baseState).step.createdGroupId = "" ∧
    remoteCalls (Run ⟨brokenService, "u1"⟩ zeroPortStep []).trace = [] :=
  have h := Run_zeroPort_no_remote_call ⟨brokenService, "u1"⟩ zeroPortStep baseState
    (by decide) (by decide)
  have h2 := Run_zeroPort_no_remote_call ⟨brokenService, "u1"⟩ zeroPortStep []
    (by decide) (by decide)
  ⟨by decide, by decide, h.2.1, h.2.2.2.2.2.1, h.2.2.2.2.2.2.2.1,
    h.2.2.2.2.2.2.2.2.2 (by decide), h2.2.2.2.2.2.1⟩

/-! ## Error reporting and the shape of the requests -/

/-- C8 at the failing input: when the creation call fails, `Run` returns `ActionHalt`
and the state bag is the one it was given, with nothing under `error`; when the
authorization call fails, `Run` returns `ActionHalt` and has put the wrapped error under
`error`. -/
theorem Run_creation_failure_sets_no_error_key :
    HasHandles baseState ∧ sshStep.SecurityGroupId = "" ∧ sshStep.SSHPort ≠ 0 ∧
    brokenService.CreateSecurityGroup (newGroup ⟨brokenService, "u1"⟩ sshStep)
      = .failed "RequestLimitExceeded" ∧
    (Run ⟨brokenService, "u1"⟩ sshStep baseState).completion = .returned .ActionHalt ∧
    (Run ⟨brokenService, "u1"⟩ sshStep baseState).state.Get "error" = none ∧
    (Run ⟨brokenService, "u1"⟩ sshStep baseState).state = baseState ∧
    uiErrors (Run ⟨brokenService, "u1"⟩ sshStep baseState).trace
      = ["RequestLimitExceeded"] ∧
    (Run ⟨refusingService "sg-abc", "u1"⟩ sshStep baseState).completion
      = .returned .ActionHalt ∧
    (Run ⟨refusingService "sg-abc", "u1"⟩ sshStep baseState).state.Get "error"
      = some (.error "Error creating temporary security group: denied") := by
  decide

/-- C9.  Shape of the requests on the create path: with empty `SecurityGroupId` and
non-zero `SSHPort`, when the creation call succeeds, `Run` makes exactly one creation
call, whose request has the name `packer ` followed by the generated token, the
description `Temporary group for Packer` and the configured `VpcId`, and exactly one
authorization call, on the group the creation call returned, with the single rule
`tcp`, `FromPort = ToPort = SSHPort`, sources `["0.0.0.0/0"]`; these two calls, in this
order, are all the remote calls of the run. -/
theorem Run_request_shape (env : Env) (s : Step) (state : StateBag)
    (hh : HasHandles state) (hid : s.SecurityGroupId = "") (hp : s.SSHPort ≠ 0)
    (resp : CreateSecurityGroupResp)
    (hc : env.ec2conn.CreateSecurityGroup (newGroup env s) = .created resp) :
    createCalls (Run env s state).trace =
      [{ Id := "", Name := "packer " ++ env.TimeOrderedUUID,
         Description := "Temporary group for Packer", VpcId := s.VpcId }] ∧
    authorizeCalls (Run env s state).trace =
      [(resp.SecurityGroup,
        [{ Protocol := "tcp", FromPort := s.SSHPort, ToPort := s.SSHPort,
           SourceIPs := ["0.0.0.0/0"] }])] ∧
    remoteCalls (Run env s state).trace =
      [.createSecurityGroup (newGroup env s) (.created resp),
       .authorizeSecurityGroup resp.SecurityGroup (sshPerms s.SSHPort)
         (env.ec2conn.AuthorizeSecurityGroup resp.SecurityGroup (sshPerms s.SSHPort))] := by
  cases ha : env.ec2conn.AuthorizeSecurityGroup resp.SecurityGroup (sshPerms s.SSHPort) with
  | none =>
    rw [Run_eq_ok env s state hh hid hp resp hc ha]
    simp [createCalls, authorizeCalls, remoteCalls, Event.isRemote, newGroup, sshPerms]
  | some err =>
    rw [Run_eq_authFailed env s state hh hid hp resp hc err ha]
    simp [createCalls, authorizeCalls, remoteCalls, Event.isRemote, newGroup, sshPerms]

/-- Port 22 in `vpc-1` with token `u1`: one creation request and one rule for port 22. -/
theorem Run_request_shape_witness :
    HasHandles baseState ∧ sshStep.SecurityGroupId = "" ∧ sshStep.SSHPort ≠ 0 ∧
    createCalls (Run ⟨flakyService "sg-abc" 0, "u1"⟩ sshStep baseState).trace =
      [{ Id := "", Name := "packer " ++ "u1",
         Description := "Temporary group for Packer", VpcId := "vpc-1" }] ∧
    authorizeCalls (Run ⟨flakyService "sg-abc" 0, "u1"⟩ sshStep baseState).trace =
      [(answeredGroup "sg-abc",
        [{ Protocol := "tcp", FromPort := 22, ToPort := 22,
           SourceIPs := ["0.0.0.0/0"] }])] :=
  have h := Run_request_shape ⟨flakyService "sg-abc" 0, "u1"⟩ sshStep baseState
    (by decide) (by decide) (by decide) { SecurityGroup := answeredGroup "sg-abc" }
    (by decide)
  ⟨by decide, by decide, by decide, h.1, h.2.1⟩

/-! ## Writes to the state bag -/

/-- What `Run` does to the state bag, in every branch: nothing, or one `Put` under
`securityGroupId`, or, in a run that returns `ActionHalt`, one `Put` under `error`. -/
theorem Run_state_cases (env : Env) (s : Step) (state : StateBag) :
    (Run env s state).state = state ∨
    (∃ v, (Run env s state).state = state.Put "securityGroupId" v) ∨
    (∃ v, (Run env s state).state = state.Put "error" v ∧
      (Run env s state).completion = .returned .ActionHalt) := by
  unfold Run
  split
  · split
    · split
      · exact Or.inr (Or.inl ⟨_, rfl⟩)
      · split
        · exact Or.inl rfl
        · dsimp only
          split
          · exact Or.inl rfl
          · split
            · exact Or.inr (Or.inr ⟨_, rfl, rfl⟩)
            · exact Or.inr (Or.inl ⟨_, rfl⟩)
    · exact Or.inl rfl
  · exact Or.inl rfl

/-- C10, as stated, fails: when the authorization call fails, `Run` writes the key
`error`, which is not `securityGroupId`; its value after `Run` and `Cleanup` differs
from the value before. -/
theorem Run_writes_error_key :
    HasHandles baseState ∧ "error" ≠ "securityGroupId" ∧
    baseState.Get "error" = none ∧
    (Run ⟨refusingService "sg-abc", "u1"⟩ sshStep baseState).state.Get "error"
      = some (.error "Error creating temporary security group: denied") ∧
    (Cleanup ⟨refusingService "sg-abc", "u1"⟩
      (Run ⟨refusingService "sg-abc", "u1"⟩ sshStep baseState).step
      (Run ⟨refusingService "sg-abc", "u1"⟩ sshStep baseState).state).state.Get "error"
      ≠ baseState.Get "error" := by
  decide

/-- C10, amended.  Frame of the state bag: for every configuration, every initial state
bag and every behaviour of the service, a key other than `securityGroupId` has the same
value after `Run` (and after `Run` followed by `Cleanup`) as before, provided it is not
`error` or the run did not return `ActionHalt`; so the only keys ever written are
`securityGroupId` and, in a halting run, `error`.  `Cleanup` leaves the state bag as it
was. -/
theorem Run_Cleanup_frame (env : Env) (s : Step) (state : StateBag) (key : String)
    (hk : key ≠ "securityGroupId")
    (he : key ≠ "error" ∨ (Run env s state).completion ≠ .returned .ActionHalt) :
    (Run env s state).state.Get key = state.Get key ∧
    (Cleanup env (Run env s state).step (Run env s state).state).state.Get key
      = state.Get key ∧
    (∀ (env2 : Env) (s2 : Step) (state2 : StateBag), (Cleanup env2 s2 state2).state = state2) := by
  have hrun : (Run env s state).state.Get key = state.Get key := by
    rcases Run_state_cases env s state with h | ⟨v, h⟩ | ⟨v, h, hhalt⟩
    · rw [h]
    · rw [h, StateBag.Get_Put_other _ _ _ _ hk]
    · rcases he with he | he
      · rw [h, StateBag.Get_Put_other _ _ _ _ he]
      · exact absurd hhalt he
  refine ⟨hrun, ?_, fun env2 s2 state2 => (Cleanup_state_step env2 s2 state2).1⟩
  rw [(Cleanup_state_step env _ _).1]
  exact hrun

/-- The key `ui` is untouched by a run whose authorization call fails, and the key
`error` is untouched by a run that continues. -/
theorem Run_Cleanup_frame_witness :
    "ui" ≠ "securityGroupId" ∧ "ui" ≠ "error" ∧
    (Cleanup ⟨refusingService "sg-abc", "u1"⟩
      (Run ⟨refusingService "sg-abc", "u1"⟩ sshStep baseState).step
      (Run ⟨refusingService "sg-abc", "u1"⟩ sshStep baseState).state).state.Get "ui"
      = baseState.Get "ui" ∧
    (Run ⟨flakyService "sg-abc" 0, "u1"⟩ sshStep baseState).completion
      ≠ .returned .ActionHalt ∧
    (Run ⟨flakyService "sg-abc" 0, "u1"⟩ sshStep baseState).state.Get "error"
      = baseState.Get "error" :=
  ⟨by decide, by decide,
    (Run_Cleanup_frame ⟨refusingService "sg-abc", "u1"⟩ sshStep baseState "ui"
      (by decide) (Or.inl (by decide))).2.1,
    by decide,
    (Run_Cleanup_frame ⟨flakyService "sg-abc" 0, "u1"⟩ sshStep baseState "error"
      (by decide) (Or.inr (by decide))).1⟩

end StepSecurityGroup
